import Mathlib

/-!
Verification of the library-management backend (authors, books, clients,
loans) against its specification.

The data model follows `app/models.py`; the HTTP controller logic follows
`app/controlers.py`; the DTO projections follow `app/dtos.py`.  The
repository layer (`app/repositories.py`) and the session manager
(`app/database.py`) are not part of the source tree, so those operations
are modelled from the specification (§4.3): each such definition carries a
doc comment saying so.

Timestamps (`datetime`) are modelled as natural numbers of microseconds
(the resolution of Python `datetime`); `timedelta(days=7)` is `7 *
usPerDay` microseconds, and `timedelta.days` of a positive delta is floor
division by `usPerDay`, exactly as in Python.  Monetary fines are modelled
as rationals (`0.5` is exact in binary floating point and the day counts
involved are far below 2^53, so float and rational arithmetic agree).
-/

namespace Db2Api

/-- Microseconds in one day: the resolution of Python `datetime`/`timedelta`. -/
def usPerDay : Nat := 86400000000

/-- `Author` entity from `app/models.py`: id, name, optional biography,
optional date of birth (dates encoded as numbers). The `books` relationship
is derived from `Book.author_id` and is not a column of the row. -/
structure Author where
  id : Nat
  name : String
  biography : Option String
  date_of_birth : Option Nat
deriving Repr, DecidableEq

/-- `Book` entity from `app/models.py`: columns id, isbn, title, description,
year, language and the foreign key `author_id`.  The `author` and
`categories` relationships are derived, not columns. -/
structure Book where
  id : Nat
  isbn : String
  title : String
  description : String
  year : Int
  language : String
  author_id : Nat
deriving Repr, DecidableEq

/-- `Category` entity from `app/models.py`. -/
structure Category where
  id : Nat
  name : String
deriving Repr, DecidableEq

/-- `BookCategory` join entity from `app/models.py`: composite key. -/
structure BookCategory where
  book_id : Nat
  category_id : Nat
deriving Repr, DecidableEq

/-- `Client` entity from `app/models.py`. -/
structure Client where
  id : Nat
  name : String
  email : String
deriving Repr, DecidableEq

/-- `Loan` entity from `app/models.py`: loan_date is a timestamp in
microseconds, return_date is absent until the book is returned, fine is
absent unless set at return time. -/
structure Loan where
  id : Nat
  book_id : Nat
  client_id : Nat
  loan_date : Nat
  return_date : Option Nat
  fine : Option ℚ
deriving Repr, DecidableEq

/-- The relational store: one table per entity. -/
structure DB where
  authors : List Author
  books : List Book
  categories : List Category
  bookCategories : List BookCategory
  clients : List Client
  loans : List Loan
deriving Repr, DecidableEq

/-- `litestar.exceptions.HTTPException`: status code and detail message. -/
structure HTTPException where
  status : Nat
  detail : String
deriving Repr, DecidableEq

/-- Modelled from the spec: `app/repositories.py` is absent from the source
tree; §4.3 "get: numeric id → the entity or an absent-value sentinel". -/
def getAuthor (db : DB) (author_id : Nat) : Option Author :=
  db.authors.find? (fun a => a.id == author_id)

/-- Modelled from the spec: repository `get` for books (§4.3). -/
def getBook (db : DB) (book_id : Nat) : Option Book :=
  db.books.find? (fun b => b.id == book_id)

/-- Modelled from the spec: repository `get` for clients (§4.3). -/
def getClient (db : DB) (client_id : Nat) : Option Client :=
  db.clients.find? (fun c => c.id == client_id)

/-- Modelled from the spec: repository `get` for loans (§4.3). -/
def getLoan (db : DB) (loan_id : Nat) : Option Loan :=
  db.loans.find? (fun l => l.id == loan_id)

/-- Modelled from the spec: §4.3 "list: all rows of the entity". -/
def listBooks (db : DB) : List Book :=
  db.books

/-- Modelled from the spec: §4.3 "add: the persisted entity with id
assigned; writes through the current session".  The persisted loan is
appended to the table with a fresh id. -/
def addLoan (db : DB) (loan : Loan) : DB × Loan :=
  let l := { loan with id := db.loans.length + 1 }
  ({ db with loans := db.loans ++ [l] }, l)

/-- Modelled from the spec: §4.3 "update: an entity with mutated fields →
the persisted entity; assumes entity already exists".  The row with the
same id is replaced. -/
def updateAuthor (db : DB) (a : Author) : DB :=
  { db with authors := db.authors.map (fun x => if x.id == a.id then a else x) }

/-- Modelled from the spec: repository `update` for books (§4.3). -/
def updateBook (db : DB) (b : Book) : DB :=
  { db with books := db.books.map (fun x => if x.id == b.id then b else x) }

/-- Modelled from the spec: repository `update` for loans (§4.3). -/
def updateLoan (db : DB) (l : Loan) : DB :=
  { db with loans := db.loans.map (fun x => if x.id == l.id then l else x) }

/-- Modelled from the spec: §4.3 `is_book_available(book_id)` is a "boolean
signal of whether the book currently has no outstanding (unreturned)
loan". -/
def is_book_available (db : DB) (book_id : Nat) : Bool :=
  db.loans.all (fun l => !(l.book_id == book_id && l.return_date.isNone))

/-- Modelled from the spec: §4.3 `search_by_title(text)` returns "all Books
whose title matches the given text"; the matching semantics are
implementation-defined, so the match predicate is a parameter. -/
def search_by_title (titleMatch : String → String → Bool) (db : DB) (title : String) :
    List Book :=
  db.books.filter (fun b => titleMatch title b.title)

/-- The state after running an endpoint: an HTTP exception aborts the
request before any mutation, leaving the store unchanged. -/
def runState (db : DB) (r : Except HTTPException (DB × α)) : DB :=
  match r with
  | .ok (db2, _) => db2
  | .error _ => db

/-- `AuthorUpdateDTO` from `app/dtos.py`: excludes `id` and `books`, and is
declared `partial=True`, so every remaining field is optional; an outer
`none` means the field was not supplied in the request body.  (`biography`
and `date_of_birth` are themselves nullable, hence the nested options.) -/
structure AuthorUpdateData where
  name : Option String
  biography : Option (Option String)
  date_of_birth : Option (Option Nat)
deriving Repr, DecidableEq

/-- Modelled from the spec: §4.4, a partial-update view applies "only
supplied fields — an update leaves unspecified fields unchanged"; this is
`DTOData.update_instance` for `AuthorUpdateDTO`. -/
def AuthorUpdateData.update_instance (d : AuthorUpdateData) (a : Author) : Author :=
  { a with
    name := d.name.getD a.name
    biography := d.biography.getD a.biography
    date_of_birth := d.date_of_birth.getD a.date_of_birth }

/-- `BookWriteDTO` from `app/dtos.py`: excludes only `id` and the `author`
relationship and is NOT declared partial, so every remaining column field —
including the foreign key `author_id` — is required and supplied. -/
structure BookWriteData where
  isbn : String
  title : String
  description : String
  year : Int
  language : String
  author_id : Nat
deriving Repr, DecidableEq

/-- `DTOData.update_instance` for `BookWriteDTO`: every field of the (non
partial) write view is applied onto the instance; `id` and the `author`
relationship are excluded by the DTO config and left untouched. -/
def BookWriteData.update_instance (d : BookWriteData) (b : Book) : Book :=
  { b with
    isbn := d.isbn
    title := d.title
    description := d.description
    year := d.year
    language := d.language
    author_id := d.author_id }

/-- `AuthorController.update_author` from `app/controlers.py`: 404 if the
author does not resolve, else apply the update data and persist. -/
def update_author (db : DB) (author_id : Nat) (data : AuthorUpdateData) :
    Except HTTPException (DB × Author) :=
  match getAuthor db author_id with
  | none => .error ⟨404, "El autor no existe"⟩
  | some author =>
    let author2 := data.update_instance author
    .ok (updateAuthor db author2, author2)

/-- `BookController.list_books` from `app/controlers.py`: 404 if the
catalog is empty, else all books. -/
def list_books (db : DB) : Except HTTPException (List Book) :=
  let books := listBooks db
  if books.isEmpty then
    .error ⟨404, "No hay libros disponibles"⟩
  else
    .ok books

/-- `BookController.update_book` from `app/controlers.py`: 404 if the book
does not resolve, else apply the write-view data and persist. -/
def update_book (db : DB) (book_id : Nat) (data : BookWriteData) :
    Except HTTPException (DB × Book) :=
  match getBook db book_id with
  | none => .error ⟨404, "El libro no existe"⟩
  | some book =>
    let book2 := data.update_instance book
    .ok (updateBook db book2, book2)

/-- `BookController.search_books` from `app/controlers.py`: 404 if the
repository title match yields nothing, else the matching books. -/
def search_books (titleMatch : String → String → Bool) (db : DB) (title : String) :
    Except HTTPException (List Book) :=
  let books := search_by_title titleMatch db title
  if books.isEmpty then
    .error ⟨404, "No se encontraron libros con ese título"⟩
  else
    .ok books

/-- `LoanController.create_loan` from `app/controlers.py`: 404 if book or
client is absent; 400 if `is_book_available` returns true (the polarity as
written in the source); otherwise a new loan with `loan_date := now` and no
return_date or fine is persisted and returned. -/
def create_loan (db : DB) (book_id client_id : Nat) (now : Nat) :
    Except HTTPException (DB × Loan) :=
  let book := getBook db book_id
  let client := getClient db client_id
  if book.isNone || client.isNone then
    .error ⟨404, "El libro o el cliente no existe"⟩
  else if is_book_available db book_id then
    .error ⟨400, "No hay copias disponibles para préstamo"⟩
  else
    let loan : Loan :=
      { id := 0, book_id := book_id, client_id := client_id,
        loan_date := now, return_date := none, fine := none }
    let (db2, loan2) := addLoan db loan
    .ok (db2, loan2)

/-- `LoanController.return_loan` from `app/controlers.py`: 404 if the loan
is absent; 400 if `return_date` is already set; otherwise set
`return_date := now`, and when `now` exceeds `loan_date + 7 days` set
`fine := days_overdue * 0.5` with `days_overdue = (now - due_date).days`
(floor division by one day, as Python `timedelta.days`). -/
def return_loan (db : DB) (loan_id : Nat) (now : Nat) :
    Except HTTPException (DB × Loan) :=
  match getLoan db loan_id with
  | none => .error ⟨404, "El préstamo no existe"⟩
  | some loan =>
    if loan.return_date.isSome then
      .error ⟨400, "El libro ya ha sido devuelto"⟩
    else
      let return_date := now
      let due_date := loan.loan_date + 7 * usPerDay
      let loan1 := { loan with return_date := some return_date }
      let loan2 :=
        if due_date < return_date then
          { loan1 with
            fine := some ((((return_date - due_date) / usPerDay : Nat) : ℚ) * (1 / 2)) }
        else loan1
      .ok (updateLoan db loan2, loan2)

end Db2Api

namespace Db2Api

/-- C1: when both the referenced book and client exist, an available book
(`is_book_available` true) makes loan creation fail with 400 "No hay copias
disponibles para préstamo" and persists nothing, while an unavailable book
proceeds to create the loan. -/
theorem create_loan_availability_polarity (db : DB) (book_id client_id now : Nat)
    (hb : (getBook db book_id).isSome = true)
    (hc : (getClient db client_id).isSome = true) :
    (is_book_available db book_id = true →
      create_loan db book_id client_id now =
        .error ⟨400, "No hay copias disponibles para préstamo"⟩ ∧
      runState db (create_loan db book_id client_id now) = db) ∧
    (is_book_available db book_id = false →
      ∃ db2 loan, create_loan db book_id client_id now = .ok (db2, loan)) := by
  obtain ⟨b, hb'⟩ := Option.isSome_iff_exists.mp hb
  obtain ⟨c, hc'⟩ := Option.isSome_iff_exists.mp hc
  constructor
  · intro hav
    have he : create_loan db book_id client_id now =
        .error ⟨400, "No hay copias disponibles para préstamo"⟩ := by
      simp [create_loan, hb', hc', hav]
    exact ⟨he, by rw [he]; rfl⟩
  · intro hav
    refine ⟨{ db with loans := db.loans ++
        [{ id := db.loans.length + 1, book_id := book_id, client_id := client_id,
           loan_date := now, return_date := none, fine := none }] },
      { id := db.loans.length + 1, book_id := book_id, client_id := client_id,
        loan_date := now, return_date := none, fine := none }, ?_⟩
    simp [create_loan, hb', hc', hav, addLoan]

/-- C1 witness: a store with one book and one client and no loans, so the
book is available; creation fails with the 400 error and persists nothing. -/
theorem create_loan_availability_polarity_witness :
    (getBook ⟨[], [⟨1, "i", "t", "d", 2000, "es", 1⟩], [], [], [⟨1, "n", "e"⟩], []⟩ 1).isSome = true ∧
    (getClient ⟨[], [⟨1, "i", "t", "d", 2000, "es", 1⟩], [], [], [⟨1, "n", "e"⟩], []⟩ 1).isSome = true ∧
    is_book_available ⟨[], [⟨1, "i", "t", "d", 2000, "es", 1⟩], [], [], [⟨1, "n", "e"⟩], []⟩ 1 = true ∧
    create_loan ⟨[], [⟨1, "i", "t", "d", 2000, "es", 1⟩], [], [], [⟨1, "n", "e"⟩], []⟩ 1 1 5 =
      .error ⟨400, "No hay copias disponibles para préstamo"⟩ :=
  ⟨by decide, by decide, by decide,
    ((create_loan_availability_polarity _ 1 1 5 (by decide) (by decide)).1 (by decide)).1⟩

/-- C4: when the referenced book or client is absent, loan creation fails
with 404 "El libro o el cliente no existe" and the store is unchanged. -/
theorem create_loan_not_found (db : DB) (book_id client_id now : Nat)
    (h : getBook db book_id = none ∨ getClient db client_id = none) :
    create_loan db book_id client_id now =
      .error ⟨404, "El libro o el cliente no existe"⟩ ∧
    runState db (create_loan db book_id client_id now) = db := by
  have he : create_loan db book_id client_id now =
      .error ⟨404, "El libro o el cliente no existe"⟩ := by
    rcases h with h | h <;> simp [create_loan, h]
  exact ⟨he, by rw [he]; rfl⟩

/-- C4 witness: an empty store; both lookups fail and creation yields the
404 error, leaving the store unchanged. -/
theorem create_loan_not_found_witness :
    getBook ⟨[], [], [], [], [], []⟩ 1 = none ∧
    create_loan ⟨[], [], [], [], [], []⟩ 1 1 0 =
      .error ⟨404, "El libro o el cliente no existe"⟩ :=
  ⟨by decide, (create_loan_not_found _ 1 1 0 (Or.inl (by decide))).1⟩

/-- C5: when creation proceeds (book and client exist, availability check
passed), the persisted loan carries loan_date = now, the given book and
client ids, no return_date and no fine, and is appended to the loans
table. -/
theorem create_loan_success_fields (db : DB) (book_id client_id now : Nat)
    (hb : (getBook db book_id).isSome = true)
    (hc : (getClient db client_id).isSome = true)
    (hav : is_book_available db book_id = false) :
    ∃ db2 loan, create_loan db book_id client_id now = .ok (db2, loan) ∧
      loan.loan_date = now ∧ loan.book_id = book_id ∧ loan.client_id = client_id ∧
      loan.return_date = none ∧ loan.fine = none ∧
      db2.loans = db.loans ++ [loan] := by
  obtain ⟨b, hb'⟩ := Option.isSome_iff_exists.mp hb
  obtain ⟨c, hc'⟩ := Option.isSome_iff_exists.mp hc
  refine ⟨{ db with loans := db.loans ++
      [{ id := db.loans.length + 1, book_id := book_id, client_id := client_id,
         loan_date := now, return_date := none, fine := none }] },
    { id := db.loans.length + 1, book_id := book_id, client_id := client_id,
      loan_date := now, return_date := none, fine := none },
    ?_, rfl, rfl, rfl, rfl, rfl, rfl⟩
  simp [create_loan, hb', hc', hav, addLoan]

/-- C5 witness: a store where book 1 has an unreturned loan (so it is
unavailable) and client 1 exists; creating a loan at time 9 persists a loan
with the stated fields. -/
theorem create_loan_success_fields_witness :
    is_book_available ⟨[], [⟨1, "i", "t", "d", 2000, "es", 1⟩], [], [], [⟨1, "n", "e"⟩],
        [⟨1, 1, 1, 0, none, none⟩]⟩ 1 = false ∧
    (∃ db2 loan, create_loan ⟨[], [⟨1, "i", "t", "d", 2000, "es", 1⟩], [], [], [⟨1, "n", "e"⟩],
        [⟨1, 1, 1, 0, none, none⟩]⟩ 1 1 9 = .ok (db2, loan) ∧
      loan.loan_date = 9 ∧ loan.book_id = 1 ∧ loan.client_id = 1 ∧
      loan.return_date = none ∧ loan.fine = none ∧
      db2.loans = [⟨1, 1, 1, 0, none, none⟩] ++ [loan]) :=
  ⟨by decide,
    create_loan_success_fields _ 1 1 9 (by decide) (by decide) (by decide)⟩

end Db2Api


namespace Db2Api

/-- C2: returning an existing, not-yet-returned loan sets return_date to
now; with due date loan_date + 7 days, a fine is set only when now strictly
exceeds the due date, and then equals the truncated whole-day overdue count
times 0.5; otherwise fine stays absent.  In particular a return exactly 7
days after loan_date yields no fine, and 9 days after yields fine 1. -/
theorem return_loan_fine_rule (db : DB) (loan_id now : Nat) (loan : Loan)
    (hg : getLoan db loan_id = some loan)
    (hr : loan.return_date = none)
    (hf : loan.fine = none) :
    ∃ db2 l2, return_loan db loan_id now = .ok (db2, l2) ∧
      l2.return_date = some now ∧
      (now ≤ loan.loan_date + 7 * usPerDay → l2.fine = none) ∧
      (loan.loan_date + 7 * usPerDay < now →
        l2.fine = some ((((now - (loan.loan_date + 7 * usPerDay)) / usPerDay : Nat) : ℚ)
          * (1 / 2))) ∧
      (now = loan.loan_date + 7 * usPerDay → l2.fine = none) ∧
      (now = loan.loan_date + 9 * usPerDay → l2.fine = some 1) := by
  have hu : 0 < usPerDay := by norm_num [usPerDay]
  by_cases hlt : loan.loan_date + 7 * usPerDay < now
  · refine ⟨updateLoan db { loan with
        return_date := some now
        fine := some ((((now - (loan.loan_date + 7 * usPerDay)) / usPerDay : Nat) : ℚ)
          * (1 / 2)) },
      { loan with
        return_date := some now
        fine := some ((((now - (loan.loan_date + 7 * usPerDay)) / usPerDay : Nat) : ℚ)
          * (1 / 2)) },
      ?_, rfl, ?_, ?_, ?_, ?_⟩
    · simp [return_loan, hg, hr, hlt]
    · intro h; omega
    · intro _; rfl
    · intro h; omega
    · intro h9
      have h2 : now - (loan.loan_date + 7 * usPerDay) = 2 * usPerDay := by omega
      simp only [h2, Nat.mul_div_cancel _ hu]
      norm_num
  · refine ⟨updateLoan db { loan with return_date := some now },
      { loan with return_date := some now }, ?_, rfl, ?_, ?_, ?_, ?_⟩
    · simp [return_loan, hg, hr, hlt]
    · intro _; exact hf
    · intro h; omega
    · intro _; exact hf
    · intro h9; omega

/-- C2 witness: a loan taken at time 0 and returned 9 days later carries
a fine, and that fine is 1 (two whole days overdue at 0.5 per day). -/
theorem return_loan_fine_rule_witness :
    getLoan ⟨[], [], [], [], [], [⟨1, 1, 1, 0, none, none⟩]⟩ 1 = some ⟨1, 1, 1, 0, none, none⟩ ∧
    (∃ db2 l2, return_loan ⟨[], [], [], [], [], [⟨1, 1, 1, 0, none, none⟩]⟩ 1 (9 * usPerDay)
        = .ok (db2, l2) ∧
      l2.return_date = some (9 * usPerDay) ∧
      (9 * usPerDay ≤ 0 + 7 * usPerDay → l2.fine = none) ∧
      (0 + 7 * usPerDay < 9 * usPerDay →
        l2.fine = some ((((9 * usPerDay - (0 + 7 * usPerDay)) / usPerDay : Nat) : ℚ)
          * (1 / 2))) ∧
      (9 * usPerDay = 0 + 7 * usPerDay → l2.fine = none) ∧
      (9 * usPerDay = 0 + 9 * usPerDay → l2.fine = some 1)) :=
  ⟨rfl,
    return_loan_fine_rule ⟨[], [], [], [], [], [⟨1, 1, 1, 0, none, none⟩]⟩ 1 (9 * usPerDay)
      ⟨1, 1, 1, 0, none, none⟩ rfl rfl rfl⟩

/-- C3: returning a loan whose return_date is already set fails with 400
"El libro ya ha sido devuelto" and leaves the store — in particular the
stored loan's return_date and fine — unchanged. -/
theorem return_loan_already_returned (db : DB) (loan_id now : Nat) (loan : Loan)
    (hg : getLoan db loan_id = some loan)
    (hr : loan.return_date.isSome = true) :
    return_loan db loan_id now = .error ⟨400, "El libro ya ha sido devuelto"⟩ ∧
    runState db (return_loan db loan_id now) = db ∧
    getLoan (runState db (return_loan db loan_id now)) loan_id = some loan := by
  have he : return_loan db loan_id now = .error ⟨400, "El libro ya ha sido devuelto"⟩ := by
    simp [return_loan, hg, hr]
  exact ⟨he, by rw [he]; rfl, by rw [he]; exact hg⟩

/-- C3 witness: a loan already returned at time 5; the second return at
time 9 yields the 400 error and the store keeps the original loan. -/
theorem return_loan_already_returned_witness :
    getLoan ⟨[], [], [], [], [], [⟨1, 1, 1, 0, some 5, none⟩]⟩ 1 = some ⟨1, 1, 1, 0, some 5, none⟩ ∧
    return_loan ⟨[], [], [], [], [], [⟨1, 1, 1, 0, some 5, none⟩]⟩ 1 9 =
      .error ⟨400, "El libro ya ha sido devuelto"⟩ :=
  ⟨rfl,
    (return_loan_already_returned ⟨[], [], [], [], [], [⟨1, 1, 1, 0, some 5, none⟩]⟩ 1 9
      ⟨1, 1, 1, 0, some 5, none⟩ rfl rfl).1⟩

/-- C10: when the return exceeds the due date by less than one whole day,
the whole-day overdue count truncates to 0 and the fine is set to 0 (a
present fine with zero value), rather than left absent. -/
theorem return_loan_zero_fine (db : DB) (loan_id now : Nat) (loan : Loan)
    (hg : getLoan db loan_id = some loan)
    (hr : loan.return_date = none)
    (h1 : loan.loan_date + 7 * usPerDay < now)
    (h2 : now < loan.loan_date + 8 * usPerDay) :
    ∃ db2 l2, return_loan db loan_id now = .ok (db2, l2) ∧
      l2.return_date = some now ∧ l2.fine = some 0 := by
  have hd : (now - (loan.loan_date + 7 * usPerDay)) / usPerDay = 0 :=
    Nat.div_eq_of_lt (by omega)
  refine ⟨updateLoan db { loan with
      return_date := some now
      fine := some ((((now - (loan.loan_date + 7 * usPerDay)) / usPerDay : Nat) : ℚ)
        * (1 / 2)) },
    { loan with
      return_date := some now
      fine := some ((((now - (loan.loan_date + 7 * usPerDay)) / usPerDay : Nat) : ℚ)
        * (1 / 2)) },
    ?_, rfl, ?_⟩
  · simp [return_loan, hg, hr, h1]
  · simp [hd]

/-- C10 witness: a loan taken at time 0 returned one microsecond past the
7-day due date carries a fine of exactly 0. -/
theorem return_loan_zero_fine_witness :
    (0 : Nat) + 7 * usPerDay < 7 * usPerDay + 1 ∧
    (∃ db2 l2, return_loan ⟨[], [], [], [], [], [⟨1, 1, 1, 0, none, none⟩]⟩ 1 (7 * usPerDay + 1)
        = .ok (db2, l2) ∧
      l2.return_date = some (7 * usPerDay + 1) ∧ l2.fine = some 0) :=
  ⟨by decide,
    return_loan_zero_fine ⟨[], [], [], [], [], [⟨1, 1, 1, 0, none, none⟩]⟩ 1 (7 * usPerDay + 1)
      ⟨1, 1, 1, 0, none, none⟩ rfl rfl (by decide) (by decide)⟩

end Db2Api

namespace Db2Api

/-- C6 counterexample: `BookWriteDTO` excludes only `id` and the `author`
relationship, so `author_id` is an applied field: updating book 1 (whose
author_id is 1) with a body carrying author_id 2 changes the stored author
reference, contradicting "the book's id and author reference are never
modified". -/
theorem update_book_author_ref_changed :
    (getBook ⟨[⟨1, "a", none, none⟩], [⟨1, "i", "t", "d", 2000, "es", 1⟩], [], [], [], []⟩ 1).map
        Book.author_id = some 1 ∧
    (update_book ⟨[⟨1, "a", none, none⟩], [⟨1, "i", "t", "d", 2000, "es", 1⟩], [], [], [], []⟩ 1
        ⟨"i", "t", "d", 2000, "es", 2⟩).toOption.map (fun p => p.2.author_id) = some 2 :=
  ⟨rfl, rfl⟩

/-- C6 amended: for every book update on an existing book, the write view
(which is not partial) is applied: the supplied isbn, title, description,
year, language and author_id — all required — replace the previous values,
so the author reference can change; the id is never modified and the
updated book is returned. -/
theorem update_book_write_view (db : DB) (book_id : Nat) (data : BookWriteData) (b : Book)
    (hg : getBook db book_id = some b) :
    ∃ db2 b2, update_book db book_id data = .ok (db2, b2) ∧
      b2.id = b.id ∧ b2.isbn = data.isbn ∧ b2.title = data.title ∧
      b2.description = data.description ∧ b2.year = data.year ∧
      b2.language = data.language ∧ b2.author_id = data.author_id ∧
      db2.authors = db.authors := by
  refine ⟨updateBook db (data.update_instance b), data.update_instance b,
    ?_, rfl, rfl, rfl, rfl, rfl, rfl, rfl, rfl⟩
  simp [update_book, hg]

/-- C6 amended witness: updating the only book with a full write body
replaces every writable field, keeps id 1, and leaves the authors table
untouched. -/
theorem update_book_write_view_witness :
    getBook ⟨[], [⟨1, "i", "t", "d", 2000, "es", 1⟩], [], [], [], []⟩ 1 =
      some ⟨1, "i", "t", "d", 2000, "es", 1⟩ ∧
    (∃ db2 b2, update_book ⟨[], [⟨1, "i", "t", "d", 2000, "es", 1⟩], [], [], [], []⟩ 1
        ⟨"i2", "t2", "d2", 2001, "en", 2⟩ = .ok (db2, b2) ∧
      b2.id = 1 ∧ b2.isbn = "i2" ∧ b2.title = "t2" ∧ b2.description = "d2" ∧
      b2.year = 2001 ∧ b2.language = "en" ∧ b2.author_id = 2 ∧
      db2.authors = []) :=
  ⟨rfl,
    update_book_write_view ⟨[], [⟨1, "i", "t", "d", 2000, "es", 1⟩], [], [], [], []⟩ 1
      ⟨"i2", "t2", "d2", 2001, "en", 2⟩ ⟨1, "i", "t", "d", 2000, "es", 1⟩ rfl⟩

/-- C7: for every author update on an existing author, only supplied fields
are applied: unsupplied fields keep their values, supplied fields take the
supplied values (so supplying only name leaves biography and date_of_birth
unchanged), the id is never modified and the books table is untouched. -/
theorem update_author_partial_semantics (db : DB) (author_id : Nat)
    (data : AuthorUpdateData) (a : Author)
    (hg : getAuthor db author_id = some a) :
    ∃ db2 a2, update_author db author_id data = .ok (db2, a2) ∧
      a2.id = a.id ∧
      (data.name = none → a2.name = a.name) ∧
      (∀ v, data.name = some v → a2.name = v) ∧
      (data.biography = none → a2.biography = a.biography) ∧
      (∀ v, data.biography = some v → a2.biography = v) ∧
      (data.date_of_birth = none → a2.date_of_birth = a.date_of_birth) ∧
      (∀ v, data.date_of_birth = some v → a2.date_of_birth = v) ∧
      db2.books = db.books := by
  refine ⟨updateAuthor db (data.update_instance a), data.update_instance a,
    ?_, rfl, ?_, ?_, ?_, ?_, ?_, ?_, rfl⟩
  · simp [update_author, hg]
  · intro h; simp [AuthorUpdateData.update_instance, h]
  · intro v h; simp [AuthorUpdateData.update_instance, h]
  · intro h; simp [AuthorUpdateData.update_instance, h]
  · intro v h; simp [AuthorUpdateData.update_instance, h]
  · intro h; simp [AuthorUpdateData.update_instance, h]
  · intro v h; simp [AuthorUpdateData.update_instance, h]

/-- C7 witness: updating author 1 with only a name supplied keeps the
stored biography and date of birth, the id, and the books table. -/
theorem update_author_partial_semantics_witness :
    getAuthor ⟨[⟨1, "old", some "bio", some 3⟩], [⟨1, "i", "t", "d", 2000, "es", 1⟩],
        [], [], [], []⟩ 1 = some ⟨1, "old", some "bio", some 3⟩ ∧
    (∃ db2 a2, update_author ⟨[⟨1, "old", some "bio", some 3⟩],
        [⟨1, "i", "t", "d", 2000, "es", 1⟩], [], [], [], []⟩ 1
        ⟨some "new", none, none⟩ = .ok (db2, a2) ∧
      a2.id = 1 ∧
      ((some "new" : Option String) = none → a2.name = "old") ∧
      (∀ v, (some "new" : Option String) = some v → a2.name = v) ∧
      ((none : Option (Option String)) = none → a2.biography = some "bio") ∧
      (∀ v, (none : Option (Option String)) = some v → a2.biography = v) ∧
      ((none : Option (Option Nat)) = none → a2.date_of_birth = some 3) ∧
      (∀ v, (none : Option (Option Nat)) = some v → a2.date_of_birth = v) ∧
      db2.books = [⟨1, "i", "t", "d", 2000, "es", 1⟩]) := by
  exact ⟨rfl,
    update_author_partial_semantics ⟨[⟨1, "old", some "bio", some 3⟩],
      [⟨1, "i", "t", "d", 2000, "es", 1⟩], [], [], [], []⟩ 1
      ⟨some "new", none, none⟩ ⟨1, "old", some "bio", some 3⟩ rfl⟩

end Db2Api

namespace Db2Api

/-- C8: listing books fails with 404 "No hay libros disponibles" exactly
when the catalog is empty; otherwise it returns all books. -/
theorem list_books_empty_iff (db : DB) :
    (list_books db = .error ⟨404, "No hay libros disponibles"⟩ ↔ db.books = []) ∧
    (db.books ≠ [] → list_books db = .ok db.books) := by
  cases hb : db.books with
  | nil =>
    constructor
    · simp [list_books, listBooks, hb]
    · intro h; exact absurd rfl h
  | cons x xs =>
    constructor
    · simp [list_books, listBooks, hb]
    · intro _; simp [list_books, listBooks, hb]

/-- C8 witness: a one-book catalog is listed as-is, with no error. -/
theorem list_books_empty_iff_witness :
    (([⟨1, "i", "t", "d", 2000, "es", 1⟩] : List Book) ≠ []) ∧
    list_books ⟨[], [⟨1, "i", "t", "d", 2000, "es", 1⟩], [], [], [], []⟩ =
      .ok [⟨1, "i", "t", "d", 2000, "es", 1⟩] := by
  exact ⟨by decide,
    (list_books_empty_iff ⟨[], [⟨1, "i", "t", "d", 2000, "es", 1⟩], [], [], [], []⟩).2
      (by decide)⟩

/-- C9: for any title-match predicate, searching fails with 404 "No se
encontraron libros con ese título" when the repository match is empty, and
otherwise returns exactly the matching books. -/
theorem search_books_match_rule (titleMatch : String → String → Bool) (db : DB)
    (title : String) :
    (search_by_title titleMatch db title = [] →
      search_books titleMatch db title =
        .error ⟨404, "No se encontraron libros con ese título"⟩) ∧
    (search_by_title titleMatch db title ≠ [] →
      search_books titleMatch db title = .ok (search_by_title titleMatch db title)) := by
  constructor
  · intro h; simp [search_books, h]
  · intro h
    cases hs : search_by_title titleMatch db title with
    | nil => exact absurd hs h
    | cons x xs => simp [search_books, hs]

/-- C9 witness: an exact-equality match on a catalog whose only book is
titled "Hobbit" finds it, and the search returns exactly that match. -/
theorem search_books_match_rule_witness :
    search_by_title (fun q t => q == t)
        ⟨[], [⟨1, "i", "Hobbit", "d", 2000, "es", 1⟩], [], [], [], []⟩ "Hobbit" ≠ [] ∧
    search_books (fun q t => q == t)
        ⟨[], [⟨1, "i", "Hobbit", "d", 2000, "es", 1⟩], [], [], [], []⟩ "Hobbit" =
      .ok (search_by_title (fun q t => q == t)
        ⟨[], [⟨1, "i", "Hobbit", "d", 2000, "es", 1⟩], [], [], [], []⟩ "Hobbit") := by
  exact ⟨by decide,
    (search_books_match_rule (fun q t => q == t)
      ⟨[], [⟨1, "i", "Hobbit", "d", 2000, "es", 1⟩], [], [], [], []⟩ "Hobbit").2 (by decide)⟩

end Db2Api
